import Mathlib

/-!
Shallow embedding of `src/app.py` (image-caption API: one Flask handler
`generate_caption` wrapping a Gemini call), together with theorems settling
the specification claims about it.

Python strings are modelled as Lean `String` (sequences of code points);
Python string methods (`strip`, `rstrip`, `startswith`, slicing) are
modelled on the underlying `List Char`.  `json.loads` is a standard-library
oracle, modelled as a parameter `loads : String → Except String Json`
(`Except.error msg` models a raised `json.JSONDecodeError` whose `str` is
`msg`).  The external Gemini call is modelled by a `GeminiOutcome`
parameter.  Everything else is translated directly from the source.
-/

namespace CaptionApp

/-! ### Characters and Python string primitives -/

/-- The backtick character. -/
def tickChar : Char := Char.ofNat 96

/-- The opening curly brace character. -/
def lbraceChar : Char := Char.ofNat 123

/-- The closing curly brace character. -/
def rbraceChar : Char := Char.ofNat 125

/-- The single-quote character (used in Python exception messages). -/
def squoteChar : Char := Char.ofNat 39

/-- The six ASCII characters Python `str.strip()` removes. -/
def isPySpace (c : Char) : Bool :=
  c == ' ' || c == '\t' || c == '\n' || c == '\r' ||
  c == Char.ofNat 11 || c == Char.ofNat 12

/-- Python `s.strip()` on the character list. -/
def pyStripList (l : List Char) : List Char :=
  ((l.dropWhile isPySpace).reverse.dropWhile isPySpace).reverse

/-- Python `s.strip()`. -/
def pyStrip (s : String) : String := String.mk (pyStripList s.toList)

/-- Python `s.rstrip("\x60\x60\x60")`: remove every trailing backtick. -/
def rstripTicks (s : String) : String :=
  String.mk ((s.toList.reverse.dropWhile (fun c => c == tickChar)).reverse)

/-- Python slicing `s[n:]`. -/
def strDrop (s : String) (n : Nat) : String := String.mk (s.toList.drop n)

/-- Python `s.startswith(p)`. -/
def pyStartswith (s p : String) : Bool := p.toList.isPrefixOf s.toList

/-- `needle` occurs as a contiguous substring of `hay` (Python `in`). -/
def containsStr (hay needle : String) : Bool :=
  decide (needle.toList <:+: hay.toList)

/-- The last character of a string, if any. -/
def lastCharOpt (s : String) : Option Char := s.toList.getLast?

/-! ### JSON values (the possible results of `json.loads`) -/

/-- A parsed JSON value.  `num` covers JSON numbers (the claims only need
integer instances); `obj` is a key-ordered field list, as a Python `dict`
produced by `json.loads` (keys distinct, insertion order kept). -/
inductive Json where
  | null : Json
  | bool (b : Bool) : Json
  | num (n : Int) : Json
  | str (s : String) : Json
  | arr (elems : List Json) : Json
  | obj (fields : List (String × Json)) : Json

/-- Python `k in d` / `d[k]` on a dict: look the key up. -/
def getField (fs : List (String × Json)) (k : String) : Option Json :=
  match fs with
  | [] => none
  | (k2, v) :: rest => if k2 = k then some v else getField rest k

/-- Python `d[k] = v` when `k` is already a key of `d`: replace the value,
keeping the key position. -/
def setKey (fs : List (String × Json)) (k : String) (v : Json) :
    List (String × Json) :=
  fs.map (fun p => if p.1 = k then (k, v) else p)

/-- The keys of a dict, in order. -/
def keysOf (fs : List (String × Json)) : List String := fs.map Prod.fst

/-- Whether a JSON value is an object carrying the key `k`. -/
def hasKey (v : Json) (k : String) : Bool :=
  match v with
  | Json.obj fs => (getField fs k).isSome
  | _ => false

/-- `name` of the Python type a `Json` value parses to. -/
def pyTypeName : Json → String
  | Json.null => "NoneType"
  | Json.bool _ => "bool"
  | Json.num _ => "int"
  | Json.str _ => "str"
  | Json.arr _ => "list"
  | Json.obj _ => "dict"

/-! ### HTTP responses -/

/-- An HTTP response as produced by `jsonify(...), status`. -/
structure HttpResponse where
  status : Nat
  body : Json

/-! ### Prompt construction (lines 50-60 of `src/app.py`) -/

/-- The initial `base_prompt` string literal. -/
def basePromptHead : String :=
  "Generate a short caption (max 20 words) describing this image for a social‑media post."

/-- The fixed part of the guidance clause, up to the opening quote. -/
def guidanceMarker : String := " Take this user idea into account: \""

/-- The clause appended when `user_prompt` is non-empty:
`f-string  Take this user idea into account: "{user_prompt}".` -/
def guidanceClause (u : String) : String := guidanceMarker ++ u ++ "\"."

/-- The fixed tail appended to `base_prompt`. -/
def promptTail : String :=
  " Also provide 5 relevant hashtags.\nReturn ONLY valid JSON in the form: \x7b\"caption\": \"\", \"hashtags\": []\x7d"

/-- Build `base_prompt` from the (already stripped) user prompt. -/
def buildPrompt (userPrompt : String) : String :=
  let b := basePromptHead
  let b := if userPrompt = "" then b else b ++ guidanceClause userPrompt
  b ++ promptTail

/-! ### Fence stripping (lines 73-77) -/

/-- Lines 74-77: strip a leading markdown fence marker and every trailing
backtick, then strip whitespace.  Applied to the already-stripped reply. -/
def fenceStrip (text : String) : String :=
  if pyStartswith text "```json" then pyStrip (rstripTicks (strDrop text 7))
  else if pyStartswith text "```" then pyStrip (rstripTicks (strDrop text 3))
  else text

/-! ### Brace extraction fallback (line 83): `re.search("\x7b.*\x7d", text, re.DOTALL)` -/

/-- Index of the first occurrence of `c`. -/
def firstIdxOf (c : Char) (l : List Char) : Option Nat :=
  l.findIdx? (fun x => x == c)

/-- Index of the last occurrence of `c`. -/
def lastIdxOf (c : Char) (l : List Char) : Option Nat :=
  (l.reverse.findIdx? (fun x => x == c)).map (fun k => l.length - 1 - k)

/-- The greedy regex match: from the first opening brace that has a closing
brace after it, to the last closing brace of the text. -/
def braceSearch (l : List Char) : Option (List Char) :=
  match lastIdxOf rbraceChar l with
  | none => none
  | some j =>
    match firstIdxOf lbraceChar (l.take j) with
    | none => none
    | some i => some ((l.take (j + 1)).drop i)

/-! ### Hashtag normalization (lines 99-101) -/

/-- `tag if tag.startswith("#") else f"#{tag}"`. -/
def normTag (tag : String) : String :=
  if pyStartswith tag "#" then tag else "#" ++ tag

/-- `str(AttributeError)` raised by `tag.startswith` on a non-string value:
`'T' object has no attribute 'startswith'` for type name `T`. -/
def attrMsg (t : Json) : String :=
  String.mk [squoteChar] ++ pyTypeName t ++ String.mk [squoteChar] ++
    " object has no attribute " ++ String.mk [squoteChar] ++ "startswith" ++
    String.mk [squoteChar]

/-- The list comprehension of lines 99-101: normalize each entry in order;
the first non-string entry raises an `AttributeError` (carried as the
`Except.error` message, to be caught by the handler's outer `except`). -/
def normalizeTags : List Json → Except String (List Json)
  | [] => Except.ok []
  | t :: rest =>
    match t with
    | Json.str s => (normalizeTags rest).map (fun l => Json.str (normTag s) :: l)
    | _ => Except.error (attrMsg t)

/-! ### Shape validation (lines 91-97) -/

/-- Lines 91-96: the parsed value is a dict, has a `caption` key, has a
`hashtags` key, and the `hashtags` value is a list.  (`json.loads` never
produces Python tuples, so the `tuple` alternative is vacuous.) -/
def validateShape (v : Json) : Bool :=
  match v with
  | Json.obj fs =>
    match getField fs "caption", getField fs "hashtags" with
    | some _, some (Json.arr _) => true
    | _, _ => false
  | _ => false

/-- The response of line 97. -/
def invalidJsonResp : HttpResponse :=
  ⟨500, Json.obj [("error", Json.str "Invalid JSON from Gemini")]⟩

/-- Lines 91-107 applied to a parsed reply: validate the shape, normalize
the hashtags (an `AttributeError` from a non-string entry reaches the outer
`except` and becomes a 500 with the exception message), and return the
dict itself — with its `hashtags` value replaced — as the 200 body. -/
def processParsed (result : Json) : HttpResponse :=
  match result with
  | Json.obj fs =>
    match getField fs "caption", getField fs "hashtags" with
    | some _, some (Json.arr tags) =>
      (match normalizeTags tags with
       | Except.ok tags2 => ⟨200, Json.obj (setKey fs "hashtags" (Json.arr tags2))⟩
       | Except.error msg => ⟨500, Json.obj [("error", Json.str msg)]⟩)
    | _, _ => invalidJsonResp
  | _ => invalidJsonResp

/-! ### JSON parsing with fallback (lines 80-88) -/

/-- Lines 80-88: strict parse of the cleaned text; on failure, brace
extraction; no match means the 500-with-raw-text response of lines 85-87; a
second parse failure raises `json.JSONDecodeError`, which reaches the outer
`except` and becomes a 500 carrying only the exception message. -/
def parseStage (loads : String → Except String Json) (text : String) :
    Except HttpResponse Json :=
  match loads text with
  | Except.ok v => Except.ok v
  | Except.error _ =>
    match braceSearch text.toList with
    | none =>
      Except.error ⟨500, Json.obj
        [("error", Json.str "Failed to parse Gemini response"),
         ("raw_response", Json.str text)]⟩
    | some sub =>
      match loads (String.mk sub) with
      | Except.ok v => Except.ok v
      | Except.error e2 => Except.error ⟨500, Json.obj [("error", Json.str e2)]⟩

/-! ### The request handler (lines 24-107) -/

/-- The `image` form field.  `decodeErr = some msg` models
`PIL.Image.open` (line 39) raising with `str(e) = msg`; `none` means the
image decodes (and re-encodes) fine. -/
structure ImageUpload where
  decodeErr : Option String

/-- An incoming POST request: `request.files["image"]` presence and the
optional `prompt` form field. -/
structure Request where
  imageField : Option ImageUpload
  promptField : Option String

/-- The outcome of `model.generate_content(...).text` (lines 63-73):
either the reply text, or an exception with message `msg`. -/
inductive GeminiOutcome where
  | ok (text : String) : GeminiOutcome
  | fail (msg : String) : GeminiOutcome

/-- The payload sent to the external model (line 63-68): inline image data
tagged `image/png` plus the instruction text. -/
structure ModelCall where
  mimeType : String
  promptText : String

/-- The handler `generate_caption`, as a function of the `json.loads`
oracle, the request, and the external call's outcome.  The second component
records the external call that was made, or `none` if the handler returned
before calling the model. -/
def generate_caption (loads : String → Except String Json) (req : Request)
    (gem : GeminiOutcome) : HttpResponse × Option ModelCall :=
  match req.imageField with
  | none => (⟨400, Json.obj [("error", Json.str "No image provided")]⟩, none)
  | some img =>
    match img.decodeErr with
    | some msg => (⟨500, Json.obj [("error", Json.str msg)]⟩, none)
    | none =>
      let userPrompt := pyStrip (req.promptField.getD "")
      let call : ModelCall := ⟨"image/png", buildPrompt userPrompt⟩
      match gem with
      | GeminiOutcome.fail msg =>
        (⟨500, Json.obj [("error", Json.str msg)]⟩, some call)
      | GeminiOutcome.ok rawText =>
        let text := fenceStrip (pyStrip rawText)
        match parseStage loads text with
        | Except.error resp => (resp, some call)
        | Except.ok result => (processParsed result, some call)

/-! ### Spec-side predicates (from the spec's words, for comparison) -/

/-- From the spec: the success body has exactly two fields — a caption
string and a sequence of hashtag strings. -/
def specTwoFieldResult (v : Json) : Bool :=
  match v with
  | Json.obj fs =>
    decide ((keysOf fs).length = 2) &&
    (match getField fs "caption" with
     | some (Json.str _) => true
     | _ => false) &&
    (match getField fs "hashtags" with
     | some (Json.arr hs) =>
       hs.all (fun h => match h with | Json.str _ => true | _ => false)
     | _ => false)
  | _ => false

/-- From the spec: the output of hashtag normalization starts with exactly
one `#` character. -/
def startsWithExactlyOneHash (s : String) : Bool :=
  pyStartswith s "#" && !(pyStartswith s "##")

/-! ### Concrete instances used in counterexamples and witnesses -/

/-- A `json.loads` oracle for traces in which every parse attempt fails
(as real `json.loads` does on non-JSON text such as `"\x7bbad\x7d"`). -/
def loadsFailing : String → Except String Json :=
  fun _ => Except.error "Expecting value: line 1 column 1 (char 0)"

/-- A request whose `image` field is present but whose bytes
`PIL.Image.open` cannot decode. -/
def reqBadImage : Request :=
  ⟨some ⟨some "cannot identify image file"⟩, none⟩

/-- A request with a well-formed image and no `prompt` field. -/
def reqGoodImage : Request := ⟨some ⟨none⟩, none⟩

/-! ### Helper lemmas -/

theorem toList_append (s t : String) : (s ++ t).toList = s.toList ++ t.toList :=
  rfl

theorem pyStartswith_hash_append (s : String) :
    pyStartswith ("#" ++ s) "#" = true := by
  simp [pyStartswith, List.isPrefixOf_iff_prefix, toList_append]

theorem normTag_startswith_hash (s : String) :
    pyStartswith (normTag s) "#" = true := by
  unfold normTag
  by_cases h : pyStartswith s "#" = true
  · simp [h]
  · simp [h, pyStartswith_hash_append]

theorem generate_caption_ok_path (loads : String → Except String Json)
    (p : Option String) (raw : String) :
    generate_caption loads ⟨some ⟨none⟩, p⟩ (GeminiOutcome.ok raw) =
      (match parseStage loads (fenceStrip (pyStrip raw)) with
       | Except.error resp =>
         (resp, some ⟨"image/png", buildPrompt (pyStrip (p.getD ""))⟩)
       | Except.ok result =>
         (processParsed result,
          some ⟨"image/png", buildPrompt (pyStrip (p.getD ""))⟩)) :=
  rfl

theorem parseStage_of_loads_ok (loads : String → Except String Json)
    (text : String) (v : Json) (h : loads text = Except.ok v) :
    parseStage loads text = Except.ok v := by
  unfold parseStage
  rw [h]

theorem parseStage_no_brace_match (loads : String → Except String Json)
    (text : String) (e : String) (hl : loads text = Except.error e)
    (hb : braceSearch text.toList = none) :
    parseStage loads text = Except.error ⟨500, Json.obj
      [("error", Json.str "Failed to parse Gemini response"),
       ("raw_response", Json.str text)]⟩ := by
  unfold parseStage
  rw [hl, hb]

theorem parseStage_second_failure (loads : String → Except String Json)
    (text : String) (e : String) (sub : List Char) (e2 : String)
    (hl : loads text = Except.error e)
    (hb : braceSearch text.toList = some sub)
    (h2 : loads (String.mk sub) = Except.error e2) :
    parseStage loads text =
      Except.error ⟨500, Json.obj [("error", Json.str e2)]⟩ := by
  unfold parseStage
  simp only [hl, hb, h2]

theorem processParsed_of_invalid (v : Json) (h : validateShape v = false) :
    processParsed v = invalidJsonResp := by
  cases v with
  | null => rfl
  | bool b => rfl
  | num n => rfl
  | str s => rfl
  | arr l => rfl
  | obj fs =>
    cases hc : getField fs "caption" with
    | none => simp [processParsed, hc]
    | some c =>
      cases hh : getField fs "hashtags" with
      | none => simp [processParsed, hc, hh]
      | some j =>
        cases j with
        | arr tags => simp [validateShape, hc, hh] at h
        | null => simp [processParsed, hc, hh]
        | bool b => simp [processParsed, hc, hh]
        | num n => simp [processParsed, hc, hh]
        | str s => simp [processParsed, hc, hh]
        | obj fs2 => simp [processParsed, hc, hh]

theorem normalizeTags_error_at (pre : List Json) (t : Json) (rest : List Json)
    (hpre : ∀ x ∈ pre, ∃ s, x = Json.str s) (ht : ∀ s, t ≠ Json.str s) :
    normalizeTags (pre ++ t :: rest) = Except.error (attrMsg t) := by
  induction pre with
  | nil =>
    cases t with
    | str s => exact absurd rfl (ht s)
    | null => rfl
    | bool b => rfl
    | num n => rfl
    | arr l => rfl
    | obj fs => rfl
  | cons x xs ih =>
    obtain ⟨s, rfl⟩ := hpre x (List.mem_cons_self x xs)
    have ih2 := ih (fun y hy => hpre y (List.mem_cons_of_mem _ hy))
    simp [normalizeTags, ih2, Except.map]

theorem attrMsg_head (t : Json) :
    (attrMsg t).toList.head? = some squoteChar := by
  cases t <;> rfl

theorem attrMsg_ne_generic (t : Json) :
    attrMsg t ≠ "Invalid JSON from Gemini" := by
  intro h
  have hh := attrMsg_head t
  rw [h] at hh
  exact absurd hh (by decide)

theorem getField_setKey_of_ne (fs : List (String × Json)) (k k2 : String)
    (v : Json) (h : k ≠ k2) :
    getField (setKey fs k v) k2 = getField fs k2 := by
  induction fs with
  | nil => rfl
  | cons q rest ih =>
    obtain ⟨qk, qv⟩ := q
    by_cases hq : qk = k
    · have e1 : setKey ((qk, qv) :: rest) k v = (k, v) :: setKey rest k v := by
        simp [setKey, hq]
      rw [e1]
      have e2 : getField ((k, v) :: setKey rest k v) k2 =
          getField (setKey rest k v) k2 := by
        simp [getField, h]
      rw [e2, ih]
      have hq2 : qk ≠ k2 := by
        rw [hq]
        exact h
      simp [getField, hq2]
    · have e1 : setKey ((qk, qv) :: rest) k v = (qk, qv) :: setKey rest k v := by
        simp [setKey, hq]
      rw [e1]
      by_cases hq2 : qk = k2
      · simp [getField, hq2]
      · simp [getField, hq2]
        exact ih

theorem keysOf_setKey (fs : List (String × Json)) (k : String) (v : Json) :
    keysOf (setKey fs k v) = keysOf fs := by
  induction fs with
  | nil => rfl
  | cons q rest ih =>
    obtain ⟨qk, qv⟩ := q
    by_cases hq : qk = k
    · have e1 : setKey ((qk, qv) :: rest) k v = (k, v) :: setKey rest k v := by
        simp [setKey, hq]
      rw [e1]
      show k :: keysOf (setKey rest k v) = qk :: keysOf rest
      rw [ih, hq]
    · have e1 : setKey ((qk, qv) :: rest) k v = (qk, qv) :: setKey rest k v := by
        simp [setKey, hq]
      rw [e1]
      show qk :: keysOf (setKey rest k v) = qk :: keysOf rest
      rw [ih]

theorem normalizeTags_ok_mem (tags tags2 : List Json)
    (h : normalizeTags tags = Except.ok tags2) :
    ∀ x ∈ tags2, ∃ s, x = Json.str s ∧ pyStartswith s "#" = true := by
  induction tags generalizing tags2 with
  | nil =>
    simp [normalizeTags] at h
    subst h
    intro x hx
    exact absurd hx (List.not_mem_nil x)
  | cons t rest ih =>
    cases t with
    | str s =>
      cases hr : normalizeTags rest with
      | error e => simp [normalizeTags, hr, Except.map] at h
      | ok rest2 =>
        simp [normalizeTags, hr, Except.map] at h
        subst h
        intro x hx
        rcases List.mem_cons.mp hx with h1 | h2
        · exact ⟨normTag s, h1, normTag_startswith_hash s⟩
        · exact ih rest2 hr x h2
    | null => simp [normalizeTags] at h
    | bool b => simp [normalizeTags] at h
    | num n => simp [normalizeTags] at h
    | arr l => simp [normalizeTags] at h
    | obj fs => simp [normalizeTags] at h

/-! ### Claim theorems -/

/-- C7 (confirmed): a request with no `image` field gets a 400 response
with body `\x7b"error": "No image provided"\x7d`, and no external model
call is made, whatever the loads oracle, prompt field and model outcome. -/
theorem missing_image_400_no_call :
    ∀ (loads : String → Except String Json) (p : Option String)
      (gem : GeminiOutcome),
      generate_caption loads ⟨none, p⟩ gem =
        (⟨400, Json.obj [("error", Json.str "No image provided")]⟩, none) := by
  intro loads p gem
  rfl

/-- C1 (counterexample): on a request whose `image` field is present but
undecodable, the handler responds 500, not 400 — the `PIL` exception is
caught by the catch-all `except` of lines 105-107. -/
theorem undecodable_image_not_400 :
    (generate_caption loadsFailing reqBadImage (GeminiOutcome.ok "x")).1.status
        = 500 ∧
    (generate_caption loadsFailing reqBadImage (GeminiOutcome.ok "x")).1.status
        ≠ 400 := by
  exact ⟨rfl, by decide⟩

/-- C1 (amended): a present-but-undecodable image yields a 500 response
carrying the decode exception's message, and no external model call. -/
theorem undecodable_image_returns_500 :
    ∀ (loads : String → Except String Json) (p : Option String)
      (gem : GeminiOutcome) (msg : String),
      generate_caption loads ⟨some ⟨some msg⟩, p⟩ gem =
        (⟨500, Json.obj [("error", Json.str msg)]⟩, none) := by
  intro loads p gem msg
  rfl

/-- C4 (counterexample): on input `"##a"` the normalization step leaves
the string unchanged, so its output starts with two `#` characters, not
exactly one. -/
theorem double_hash_not_exactly_one :
    startsWithExactlyOneHash (normTag "##a") = false := by
  rfl

/-- C4 (amended): the output of hashtag normalization always starts with
at least one `#` (one is prepended if absent), and a string already
starting with `#` is returned unchanged (so no `#` is duplicated, but
pre-existing repeated `#` characters are kept). -/
theorem normTag_hash_invariant :
    ∀ s : String,
      pyStartswith (normTag s) "#" = true ∧ normTag ("#" ++ s) = "#" ++ s := by
  intro s
  refine ⟨normTag_startswith_hash s, ?_⟩
  unfold normTag
  simp [pyStartswith_hash_append]

/-- C5 (confirmed): hashtag normalization is idempotent — applying the
`#`-prefix rule twice yields the same string as applying it once. -/
theorem normTag_idempotent :
    ∀ s : String, normTag (normTag s) = normTag s := by
  intro s
  by_cases h : pyStartswith s "#" = true
  · unfold normTag
    simp [h]
  · have h2 : normTag s = "#" ++ s := by
      unfold normTag
      simp [h]
    rw [h2]
    unfold normTag
    simp [pyStartswith_hash_append]

/-- C8 (confirmed): when the parsed reply fails shape validation — not a
dict, or missing `caption`, or missing `hashtags`, or `hashtags` not a
list — the handler responds 500 with the generic invalid-response body,
recovering nothing of the malformed value. -/
theorem shape_violation_generic_500 :
    ∀ (loads : String → Except String Json) (p : Option String)
      (raw : String) (v : Json),
      loads (fenceStrip (pyStrip raw)) = Except.ok v →
      validateShape v = false →
      (generate_caption loads ⟨some ⟨none⟩, p⟩ (GeminiOutcome.ok raw)).1 =
        invalidJsonResp := by
  intro loads p raw v hl hv
  rw [generate_caption_ok_path loads p raw,
    parseStage_of_loads_ok loads _ v hl]
  exact processParsed_of_invalid v hv

/-- Witness for C8: a reply parsing to the number `0` (missing both keys)
gets the generic 500. -/
theorem shape_violation_generic_500_witness :
    (generate_caption (fun _ => Except.ok (Json.num 0)) reqGoodImage
        (GeminiOutcome.ok "x")).1 = invalidJsonResp :=
  shape_violation_generic_500 _ none "x" (Json.num 0) rfl rfl

/-- C9 (confirmed): a parsed reply that passes shape validation but whose
`hashtags` list holds a non-string entry makes `tag.startswith` raise an
`AttributeError`, and the handler responds 500 carrying that exception's
message, which differs from the generic shape-validation error. -/
theorem nonstring_hashtag_attribute_error_500 :
    ∀ (loads : String → Except String Json) (p : Option String)
      (raw : String) (fs : List (String × Json)) (c : Json)
      (pre rest : List Json) (t : Json),
      loads (fenceStrip (pyStrip raw)) = Except.ok (Json.obj fs) →
      getField fs "caption" = some c →
      getField fs "hashtags" = some (Json.arr (pre ++ t :: rest)) →
      (∀ x ∈ pre, ∃ s, x = Json.str s) →
      (∀ s, t ≠ Json.str s) →
      (generate_caption loads ⟨some ⟨none⟩, p⟩ (GeminiOutcome.ok raw)).1 =
          ⟨500, Json.obj [("error", Json.str (attrMsg t))]⟩ ∧
        attrMsg t ≠ "Invalid JSON from Gemini" := by
  intro loads p raw fs c pre rest t hl hc hh hpre ht
  refine ⟨?_, attrMsg_ne_generic t⟩
  rw [generate_caption_ok_path loads p raw,
    parseStage_of_loads_ok loads _ _ hl]
  show processParsed (Json.obj fs) = _
  simp [processParsed, hc, hh, normalizeTags_error_at pre t rest hpre ht]

/-- Witness for C9: the reply `\x7b"caption": "x", "hashtags": ["a", 3]\x7d`
yields a 500 whose error is the `AttributeError` message for `int`. -/
theorem nonstring_hashtag_attribute_error_500_witness :
    (generate_caption
        (fun _ => Except.ok (Json.obj
          [("caption", Json.str "x"),
           ("hashtags", Json.arr [Json.str "a", Json.num 3])]))
        reqGoodImage (GeminiOutcome.ok "y")).1 =
      ⟨500, Json.obj [("error", Json.str (attrMsg (Json.num 3)))]⟩ :=
  (nonstring_hashtag_attribute_error_500 _ none "y"
    [("caption", Json.str "x"),
     ("hashtags", Json.arr [Json.str "a", Json.num 3])]
    (Json.str "x") [Json.str "a"] [] (Json.num 3) rfl rfl rfl
    (by intro x hx
        rw [List.mem_singleton] at hx
        exact ⟨"a", hx⟩)
    (by intro s h
        exact Json.noConfusion h)).1

/-- C2 (counterexample): a reply parsing to
`\x7b"caption": 7, "hashtags": ["a"], "extra": true\x7d` passes shape
validation, and the handler returns it with HTTP 200 — but the body has
three fields and a non-string caption, so the success body is not an
object with exactly two fields (a caption string and hashtag strings). -/
theorem success_body_extra_fields_pass_through :
    (generate_caption
        (fun _ => Except.ok (Json.obj
          [("caption", Json.num 7),
           ("hashtags", Json.arr [Json.str "a"]),
           ("extra", Json.bool true)]))
        reqGoodImage (GeminiOutcome.ok "z")).1.status = 200 ∧
      specTwoFieldResult
        (generate_caption
          (fun _ => Except.ok (Json.obj
            [("caption", Json.num 7),
             ("hashtags", Json.arr [Json.str "a"]),
             ("extra", Json.bool true)]))
          reqGoodImage (GeminiOutcome.ok "z")).1.body = false :=
  ⟨rfl, rfl⟩

/-- C2 (amended): on success the handler returns the parsed dict itself
with HTTP 200, with its `hashtags` value replaced by the normalized list:
the key set is preserved (so extra keys pass through), the `caption` value
is returned as parsed (not checked to be a string), and every normalized
hashtag is a `#`-prefixed string. -/
theorem success_body_shape_amended :
    ∀ (loads : String → Except String Json) (p : Option String)
      (raw : String) (fs : List (String × Json)) (c : Json)
      (tags tags2 : List Json),
      loads (fenceStrip (pyStrip raw)) = Except.ok (Json.obj fs) →
      getField fs "caption" = some c →
      getField fs "hashtags" = some (Json.arr tags) →
      normalizeTags tags = Except.ok tags2 →
      (generate_caption loads ⟨some ⟨none⟩, p⟩ (GeminiOutcome.ok raw)).1 =
          ⟨200, Json.obj (setKey fs "hashtags" (Json.arr tags2))⟩ ∧
        keysOf (setKey fs "hashtags" (Json.arr tags2)) = keysOf fs ∧
        getField (setKey fs "hashtags" (Json.arr tags2)) "caption" = some c ∧
        (∀ x ∈ tags2, ∃ s, x = Json.str s ∧ pyStartswith s "#" = true) := by
  intro loads p raw fs c tags tags2 hl hc hh hn
  refine ⟨?_, keysOf_setKey fs "hashtags" (Json.arr tags2), ?_,
    normalizeTags_ok_mem tags tags2 hn⟩
  · rw [generate_caption_ok_path loads p raw,
      parseStage_of_loads_ok loads _ _ hl]
    show processParsed (Json.obj fs) = _
    simp [processParsed, hc, hh, hn]
  · rw [getField_setKey_of_ne fs "hashtags" "caption" _ (by decide)]
    exact hc

/-- Witness for C2 (amended): the reply
`\x7b"caption": "A cat", "hashtags": ["cats"]\x7d` yields a 200 whose
`hashtags` value is the normalized `["#cats"]`. -/
theorem success_body_shape_amended_witness :
    (generate_caption
        (fun _ => Except.ok (Json.obj
          [("caption", Json.str "A cat"),
           ("hashtags", Json.arr [Json.str "cats"])]))
        reqGoodImage (GeminiOutcome.ok "w")).1 =
      ⟨200, Json.obj (setKey
        [("caption", Json.str "A cat"),
         ("hashtags", Json.arr [Json.str "cats"])]
        "hashtags" (Json.arr [Json.str "#cats"]))⟩ :=
  (success_body_shape_amended _ none "w"
    [("caption", Json.str "A cat"), ("hashtags", Json.arr [Json.str "cats"])]
    (Json.str "A cat") [Json.str "cats"] [Json.str "#cats"]
    rfl rfl rfl rfl).1

/-- C3 (counterexample): on the reply `\x7bbad\x7d`, strict parsing fails,
brace extraction finds `\x7bbad\x7d`, and the fallback parse also fails —
the raised `JSONDecodeError` reaches the catch-all, so the 500 body
carries only the exception message and no `raw_response` field, contrary
to the claim that the raw cleaned text is included. -/
theorem fallback_parse_failure_omits_raw_text :
    (generate_caption loadsFailing reqGoodImage
        (GeminiOutcome.ok "\x7bbad\x7d")).1 =
      ⟨500, Json.obj
        [("error", Json.str "Expecting value: line 1 column 1 (char 0)")]⟩ ∧
      hasKey (generate_caption loadsFailing reqGoodImage
        (GeminiOutcome.ok "\x7bbad\x7d")).1.body "raw_response" = false :=
  ⟨rfl, rfl⟩

/-- C3 (amended): when strict parsing of the cleaned text fails, the
handler responds 500 in both fallback situations, but the raw cleaned text
is included only when no brace-delimited substring exists; when the
extracted substring also fails to parse, the body carries only the second
parse error's message. -/
theorem parse_failure_responses :
    ∀ (loads : String → Except String Json) (p : Option String)
      (raw e1 : String),
      loads (fenceStrip (pyStrip raw)) = Except.error e1 →
      ((braceSearch (fenceStrip (pyStrip raw)).toList = none →
         (generate_caption loads ⟨some ⟨none⟩, p⟩ (GeminiOutcome.ok raw)).1 =
           ⟨500, Json.obj
             [("error", Json.str "Failed to parse Gemini response"),
              ("raw_response", Json.str (fenceStrip (pyStrip raw)))]⟩) ∧
       (∀ (sub : List Char) (e2 : String),
         braceSearch (fenceStrip (pyStrip raw)).toList = some sub →
         loads (String.mk sub) = Except.error e2 →
         (generate_caption loads ⟨some ⟨none⟩, p⟩ (GeminiOutcome.ok raw)).1 =
           ⟨500, Json.obj [("error", Json.str e2)]⟩)) := by
  intro loads p raw e1 hl
  constructor
  · intro hb
    rw [generate_caption_ok_path loads p raw,
      parseStage_no_brace_match loads _ e1 hl hb]
  · intro sub e2 hb h2
    rw [generate_caption_ok_path loads p raw,
      parseStage_second_failure loads _ e1 sub e2 hl hb h2]

/-- Witness for C3 (amended): the reply `"hello"` has no brace-delimited
substring, so the 500 body carries the parse error and the raw text. -/
theorem parse_failure_responses_witness :
    (generate_caption loadsFailing reqGoodImage
        (GeminiOutcome.ok "hello")).1 =
      ⟨500, Json.obj
        [("error", Json.str "Failed to parse Gemini response"),
         ("raw_response", Json.str "hello")]⟩ :=
  (parse_failure_responses loadsFailing none "hello" _ rfl).1 rfl

theorem containsStr_iff (hay needle : String) :
    containsStr hay needle = true ↔ needle.toList <:+: hay.toList := by
  simp [containsStr]

theorem buildPrompt_eq_of_nonempty (u : String) (hu : u ≠ "") :
    buildPrompt u = basePromptHead ++ guidanceClause u ++ promptTail := by
  simp only [buildPrompt]
  rw [if_neg hu]

theorem buildPrompt_contains_clause (u : String) (hu : u ≠ "") :
    containsStr (buildPrompt u) (guidanceClause u) = true := by
  rw [containsStr_iff, buildPrompt_eq_of_nonempty u hu]
  exact ⟨basePromptHead.toList, promptTail.toList,
    by rw [toList_append, toList_append]⟩

theorem buildPrompt_contains_marker (u : String) (hu : u ≠ "") :
    containsStr (buildPrompt u) guidanceMarker = true := by
  rw [containsStr_iff, buildPrompt_eq_of_nonempty u hu]
  have h1 : guidanceMarker.toList <+: (guidanceClause u).toList := by
    refine ⟨u.toList ++ ("\"." : String).toList, ?_⟩
    show _ = ((guidanceMarker ++ u) ++ "\".").toList
    rw [toList_append, toList_append, List.append_assoc]
  have h2 : (guidanceClause u).toList <:+:
      (basePromptHead ++ guidanceClause u ++ promptTail).toList :=
    ⟨basePromptHead.toList, promptTail.toList,
      by rw [toList_append, toList_append]⟩
  exact List.IsInfix.trans h1.isInfix h2

set_option maxRecDepth 8192 in
/-- C6 (confirmed): the composed instruction contains the guidance marker
exactly when the trimmed guidance text is non-empty, and in that case it
contains the full guidance clause quoting the trimmed text verbatim. -/
theorem guidance_clause_iff_nonempty_prompt :
    ∀ p : String,
      (containsStr (buildPrompt (pyStrip p)) guidanceMarker = true ↔
        pyStrip p ≠ "") ∧
      (pyStrip p ≠ "" →
        containsStr (buildPrompt (pyStrip p)) (guidanceClause (pyStrip p)) =
          true) := by
  intro p
  refine ⟨⟨?_, ?_⟩, ?_⟩
  · intro hc hu
    rw [hu] at hc
    have hfalse : containsStr (buildPrompt "") guidanceMarker = false := by
      decide
    rw [hfalse] at hc
    exact Bool.noConfusion hc
  · intro hu
    exact buildPrompt_contains_marker (pyStrip p) hu
  · intro hu
    exact buildPrompt_contains_clause (pyStrip p) hu

/-- Witness for C6: guidance text `" hi "` trims to `"hi"`, which appears
quoted verbatim in the composed instruction. -/
theorem guidance_clause_witness :
    containsStr (buildPrompt (pyStrip " hi "))
      (guidanceClause (pyStrip " hi ")) = true :=
  (guidance_clause_iff_nonempty_prompt " hi ").2 (by decide)

theorem pyStartswith_append_self (a s : String) :
    pyStartswith (a ++ s) a = true := by
  simp [pyStartswith, List.isPrefixOf_iff_prefix, toList_append]

theorem strDrop_append (a s : String) :
    strDrop (a ++ s) a.toList.length = s := by
  unfold strDrop
  rw [toList_append, List.drop_left]
  rfl

theorem rstripTicks_append_ticks (c : String) :
    rstripTicks (c ++ "```") = rstripTicks c := by
  unfold rstripTicks
  have ht : ("```" : String).toList.reverse = [tickChar, tickChar, tickChar] :=
    rfl
  rw [toList_append, List.reverse_append, ht]
  simp [List.dropWhile_cons]

theorem head_dropWhile_ticks (l : List Char) :
    (l.dropWhile fun c => c == tickChar).head? ≠ some tickChar := by
  induction l with
  | nil => simp
  | cons a l ih =>
    by_cases h : (a == tickChar) = true
    · rw [List.dropWhile_cons, if_pos h]
      exact ih
    · rw [List.dropWhile_cons, if_neg h]
      simp only [List.head?_cons, ne_eq, Option.some.injEq]
      intro hEq
      rw [hEq] at h
      exact h (beq_self_eq_true tickChar)

theorem lastCharOpt_rstripTicks (c : String) :
    lastCharOpt (rstripTicks c) ≠ some tickChar := by
  unfold lastCharOpt rstripTicks
  show ((c.toList.reverse.dropWhile fun x => x == tickChar).reverse).getLast? ≠
    some tickChar
  rw [List.getLast?_reverse]
  exact head_dropWhile_ticks _

/-- C10 (confirmed): for a fenced reply, the stripping step removes the
whole maximal run of trailing backticks — the closing fence and any
backticks the inner content itself ends in — before the final whitespace
strip; in particular the backtick-stripped text never ends in a backtick.
Holds for both the ` ```json ` marker and the generic ` ``` ` marker. -/
theorem fence_strip_removes_all_trailing_backticks :
    ∀ c : String,
      fenceStrip ("```json" ++ (c ++ "```")) = pyStrip (rstripTicks c) ∧
      (pyStartswith ("```" ++ (c ++ "```")) "```json" = false →
        fenceStrip ("```" ++ (c ++ "```")) = pyStrip (rstripTicks c)) ∧
      lastCharOpt (rstripTicks c) ≠ some tickChar := by
  intro c
  refine ⟨?_, ?_, lastCharOpt_rstripTicks c⟩
  · unfold fenceStrip
    rw [if_pos (pyStartswith_append_self "```json" (c ++ "```"))]
    rw [show (7 : Nat) = ("```json" : String).toList.length from rfl,
      strDrop_append, rstripTicks_append_ticks]
  · intro hnj
    unfold fenceStrip
    rw [if_neg (by simp [hnj]),
      if_pos (pyStartswith_append_self "```" (c ++ "```"))]
    rw [show (3 : Nat) = ("```" : String).toList.length from rfl,
      strDrop_append, rstripTicks_append_ticks]

/-- Witness for C10: content `"a\x60\x60"` inside a generic fence loses
its own trailing backticks along with the closing fence. -/
theorem fence_strip_removes_all_trailing_backticks_witness :
    fenceStrip ("```" ++ ("a``" ++ "```")) = pyStrip (rstripTicks "a``") :=
  (fence_strip_removes_all_trailing_backticks "a``").2.1 (by decide)

end CaptionApp
